import Mathlib

/-!
Verification of the fan-out / barrier / reduce pipeline in
`src/langgraph/module-7-stress-testing/studio/agent.py`.

The Python script builds a LangGraph `StateGraph` over a TypedDict state
with three keys: `counter` (annotated with the reducer `operator.add`),
`tasks_to_spawn`, and `message`.  We embed the state as a structure of
`Option` fields (a key may be absent from the dict), each node as a
function returning a partial update (the dict the Python node returns),
the reducer-driven merge as `applyUpdate`, and the graph invocation as an
explicit pipeline: prepare → route/scatter → fold the task updates →
collector (barrier) → result.  `print` calls are modelled as a list of
emitted lines.  Code that can raise (the `state["tasks_to_spawn"]`
subscript) returns `Except PyErr`.
-/

/-- State of the graph: Python `CounterState` TypedDict.  A field is `none`
when the key is absent from the dict.  In the source, `counter` is
`Annotated[int, operator.add]`, which LangGraph merges by integer addition
starting from the default 0. -/
structure CounterState where
  counter : Option Int
  tasks_to_spawn : Option Int
  message : Option String
deriving DecidableEq, Repr

/-- Python `{}`: the empty dict / empty update. -/
def emptyState : CounterState := ⟨none, none, none⟩

/-- Errors the embedded Python code could raise.  `keyError` models a
failed `state[...]` subscript; `invalidConfig` is the InvalidConfig error named by the spec (the source never raises it — this constructor
exists so that claims mentioning it can be stated). -/
inductive PyErr where
  | keyError : PyErr
  | invalidConfig : PyErr
deriving DecidableEq, Repr

/-- LangGraph `Send` command: a target node name and the payload state the
node is invoked on. -/
structure SendCmd where
  node : String
  payload : CounterState
deriving DecidableEq, Repr

/-- Merge the partial update of a node `u` into state `s`, as LangGraph does for
`CounterState`: `counter` is combined with `operator.add` (default 0 when
the channel has no value yet), the other fields are overwritten when the
update provides them. -/
def applyUpdate (s u : CounterState) : CounterState :=
  { counter :=
      match u.counter with
      | none => s.counter
      | some v => some (s.counter.getD 0 + v)
    tasks_to_spawn :=
      match u.tasks_to_spawn with
      | none => s.tasks_to_spawn
      | some v => some v
    message :=
      match u.message with
      | none => s.message
      | some v => some v }

/-- Python `prepare_tasks`: returns `{"tasks_to_spawn": 10000}`. -/
def prepare_tasks (_s : CounterState) : CounterState :=
  { counter := none, tasks_to_spawn := some 10000, message := none }

/-- Python `increment_node`: returns `{"counter": 1}` for every input. -/
def increment_node (_s : CounterState) : CounterState :=
  { counter := some 1, tasks_to_spawn := none, message := none }

/-- Python `collector_node`: returns the empty update `{}`. -/
def collector_node (_s : CounterState) : CounterState := emptyState

/-- Success message of `result_node`:
`f"✅ Success! Counter reached {got} as expected."`. -/
def successMsg (got : Int) : String :=
  "✅ Success! Counter reached " ++ toString got ++ " as expected."

/-- Failure message of `result_node`:
`f"❌ Failure! Expected {expected}, but got {got}."`. -/
def failureMsg (expected got : Int) : String :=
  "❌ Failure! Expected " ++ toString expected ++ ", but got " ++ toString got ++ "."

/-- Comparison-and-message step of `result_node`, with the expected total
as a parameter: the source fixes `expected = 10000`; the RunConfig of the spec
carries `expectedTotal`, so the comparison is factored through this
function and `result_node` below instantiates it at 10000. -/
def result_check (expected got : Int) : String :=
  if got = expected then successMsg got else failureMsg expected got

/-- Modelled from the spec: the `succeeded` field of RunOutcome,
`succeeded = (finalValue == expectedTotal)`.  The source has no boolean
field; this is exactly the branch condition of `result_node`. -/
def succeeded (expected got : Int) : Bool := got == expected

/-- Python `result_node`: `expected = 10000`, `got = state.get("counter", 0)`,
returns `{"message": msg}` with the success/failure message. -/
def result_node (s : CounterState) : CounterState :=
  { counter := none, tasks_to_spawn := none,
    message := some (result_check 10000 (s.counter.getD 0)) }

/-- Print line of `result_node`:
`f"Node: result (Expected={expected}, Got={got})"` at `expected = 10000`. -/
def resultPrint (got : Int) : String :=
  "Node: result (Expected=10000, Got=" ++ toString got ++ ")"

/-- Python `spawn_router`: reads `state["tasks_to_spawn"]` (a `KeyError`
when the key is absent) and returns `[Send("increment", {}) for _ in range(n)]`;
`range n` is empty for `n ≤ 0`, so the list has `n.toNat` elements. -/
def spawn_router (s : CounterState) : Except PyErr (List SendCmd) :=
  match s.tasks_to_spawn with
  | none => .error .keyError
  | some n => .ok (List.replicate n.toNat { node := "increment", payload := emptyState })

/-- Updates produced by the scattered tasks: each `Send` runs
`increment_node` on its payload. -/
def taskUpdates (sends : List SendCmd) : List CounterState :=
  sends.map (fun sd => increment_node sd.payload)

/-- Result of invoking the graph: final state plus the list of lines the
nodes printed, or the error raised. -/
def GraphResult := Except PyErr (CounterState × List String)

/-- Scatter/barrier/reduce/verify stages of the graph, run on a state that
already carries a fan-out count `n` in `tasks_to_spawn` (the routing point
of the graph; `prepare_tasks` hard-codes `n = 10000`, the spec models the
fan-out as dynamic).  Routing spawns the `Send` list and the task updates
are folded into the state by the reducer.  In the source graph, `collector`
is reachable only through `increment` and `result` only through
`collector`, so when the `Send` list is empty no increment task ever
triggers them: the run ends after routing, with no message written and
only the routing line printed.  Otherwise the collector barrier and the
result node run. -/
def runWithTasks (n : Int) : GraphResult :=
  let s1 : CounterState := { counter := none, tasks_to_spawn := some n, message := none }
  match spawn_router s1 with
  | .error e => .error e
  | .ok sends =>
    let s2 := (taskUpdates sends).foldl applyUpdate s1
    if sends.isEmpty then
      .ok (s2, ["Routing... Spawning tasks."])
    else
      let s3 := applyUpdate s2 (collector_node s2)
      let s4 := applyUpdate s3 (result_node s3)
      .ok (s4, ["Routing... Spawning tasks.",
                "Node: collector (all increments complete)",
                resultPrint (s3.counter.getD 0)])

/-- Full graph invocation `graph.invoke(init)`: prepare_tasks, then the
conditional edge routes through `spawn_router`, the spawned `increment`
tasks run and their updates merge via the reducer, the collector barrier,
and `result_node`.  As in `runWithTasks`, collector and result are only
reached through the increment tasks, so an empty `Send` list ends the run
after routing (with `prepare_tasks` hard-coding 10000 tasks this branch
never fires).  The second component collects the printed lines in order
(increment tasks print nothing). -/
def runGraph (init : CounterState) : GraphResult :=
  let s1 := applyUpdate init (prepare_tasks init)
  match spawn_router s1 with
  | .error e => .error e
  | .ok sends =>
    let s2 := (taskUpdates sends).foldl applyUpdate s1
    if sends.isEmpty then
      .ok (s2, ["Node: prepare_tasks", "Routing... Spawning tasks."])
    else
      let s3 := applyUpdate s2 (collector_node s2)
      let s4 := applyUpdate s3 (result_node s3)
      .ok (s4, ["Node: prepare_tasks",
                "Routing... Spawning tasks.",
                "Node: collector (all increments complete)",
                resultPrint (s3.counter.getD 0)])

/-- Final counter value of a successful run, read the way `result_node`
reads it: `state.get("counter", 0)`. -/
def resCounter (r : GraphResult) : Option Int :=
  match r with
  | .ok (s, _) => some (s.counter.getD 0)
  | .error _ => none

/-- Final message of a successful run. -/
def resMessage (r : GraphResult) : Option String :=
  match r with
  | .ok (s, _) => s.message
  | .error _ => none

/-- Lines printed during a successful run. -/
def resLog (r : GraphResult) : Option (List String) :=
  match r with
  | .ok (_, log) => some log
  | .error _ => none

/-- Counter-only update carrying contribution `c` (the shape of every
update an `increment` task produces, which carries `c = 1`). -/
def cUpd (c : Int) : CounterState :=
  { counter := some c, tasks_to_spawn := none, message := none }

/-- Substring test on character lists (needle, haystack). -/
def subAt (p l : List Char) : Bool :=
  match p, l with
  | [], _ => true
  | _ :: _, [] => false
  | a :: ps, b :: ls => a == b && subAt ps ls

/-- Substring test: does `p` occur contiguously in `l`? -/
def hasSubList (p l : List Char) : Bool :=
  match l with
  | [] => subAt p []
  | _ :: ls => subAt p l || hasSubList p ls

/-- String containment: does `p` occur as a substring of `s`? -/
def hasSub (p s : String) : Bool := hasSubList p.toList s.toList

/-- Contributions carried by a list of `Send` commands: the counter value
each resulting task update contributes. -/
def contribsOf (sends : List SendCmd) : List Int :=
  (taskUpdates sends).map (fun u => u.counter.getD 0)

/-- State reached after the scatter/reduce stages when the fan-out count is
`n`: the task updates of the spawned `Send` list folded into the routing
state. -/
def scatterState (n : Int) : CounterState :=
  (taskUpdates (List.replicate n.toNat { node := "increment", payload := emptyState })).foldl
    applyUpdate { counter := none, tasks_to_spawn := some n, message := none }

lemma taskUpdates_replicate (k : Nat) (sd : SendCmd) :
    taskUpdates (List.replicate k sd) = (List.replicate k (1 : Int)).map cUpd := by
  simp [taskUpdates, List.map_replicate, increment_node, cUpd]

lemma counter_applyUpdate_cUpd (s : CounterState) (c : Int) :
    (applyUpdate s (cUpd c)).counter = some (s.counter.getD 0 + c) := rfl

lemma foldl_cUpd_counter (l : List Int) (s : CounterState) :
    (((l.map cUpd).foldl applyUpdate s).counter.getD 0) = s.counter.getD 0 + l.sum := by
  induction l generalizing s with
  | nil => simp
  | cons c cs ih =>
      simp only [List.map_cons, List.foldl_cons, List.sum_cons]
      rw [ih, counter_applyUpdate_cUpd]
      simp only [Option.getD_some]
      ring

lemma sum_replicate_one (k : Nat) : (List.replicate k (1 : Int)).sum = k := by
  induction k with
  | zero => simp
  | succ m ih => simp [List.replicate_succ, ih]; ring

lemma scatterState_counter (n : Int) :
    (scatterState n).counter.getD 0 = (n.toNat : Int) := by
  unfold scatterState
  rw [taskUpdates_replicate, foldl_cUpd_counter, sum_replicate_one]
  simp

lemma runWithTasks_nonpos_eq (n : Int) (h : n ≤ 0) :
    runWithTasks n = .ok
      ({ counter := none, tasks_to_spawn := some n, message := none },
       ["Routing... Spawning tasks."]) := by
  simp [runWithTasks, spawn_router, Int.toNat_of_nonpos h, taskUpdates]

lemma runWithTasks_pos_eq (n : Nat) (h : n ≠ 0) :
    runWithTasks (n : Int) = .ok
      (applyUpdate (scatterState (n : Int)) (result_node (scatterState (n : Int))),
       ["Routing... Spawning tasks.",
        "Node: collector (all increments complete)",
        resultPrint ((scatterState (n : Int)).counter.getD 0)]) := by
  obtain ⟨k, rfl⟩ := Nat.exists_eq_succ_of_ne_zero h
  rfl

lemma resCounter_ok_result (s : CounterState) (log : List String) :
    resCounter (Except.ok (applyUpdate s (result_node s), log)) = some (s.counter.getD 0) := rfl

lemma resMessage_ok_result (s : CounterState) (log : List String) :
    resMessage (Except.ok (applyUpdate s (result_node s), log))
      = some (result_check 10000 (s.counter.getD 0)) := rfl

lemma resCounter_runWithTasks (n : Nat) :
    resCounter (runWithTasks (n : Int)) = some (n : Int) := by
  rcases Nat.eq_zero_or_pos n with h | h
  · subst h
    rw [runWithTasks_nonpos_eq _ (by simp)]
    rfl
  · rw [runWithTasks_pos_eq n h.ne', resCounter_ok_result, scatterState_counter]
    simp

lemma resMessage_runWithTasks_pos (n : Nat) (h : n ≠ 0) :
    resMessage (runWithTasks (n : Int)) = some (result_check 10000 (n : Int)) := by
  rw [runWithTasks_pos_eq n h, resMessage_ok_result, scatterState_counter]
  simp

lemma runGraph_empty_as_runWithTasks :
    runGraph emptyState =
      match runWithTasks ((10000 : Nat) : Int) with
      | .ok (s, log) => .ok (s, "Node: prepare_tasks" :: log)
      | .error e => .error e := rfl

lemma runGraph_empty_eq :
    runGraph emptyState = .ok
      (applyUpdate (scatterState ((10000 : Nat) : Int))
         (result_node (scatterState ((10000 : Nat) : Int))),
       ["Node: prepare_tasks",
        "Routing... Spawning tasks.",
        "Node: collector (all increments complete)",
        resultPrint ((scatterState ((10000 : Nat) : Int)).counter.getD 0)]) := by
  rw [runGraph_empty_as_runWithTasks, runWithTasks_pos_eq 10000 (by norm_num)]

lemma resLog_ok (st : CounterState) (log : List String) :
    resLog (Except.ok (st, log)) = some log := rfl

lemma resCounter_runGraph_empty : resCounter (runGraph emptyState) = some 10000 := by
  rw [runGraph_empty_eq, resCounter_ok_result, scatterState_counter]
  norm_num

lemma resMessage_runGraph_empty :
    resMessage (runGraph emptyState) = some (successMsg 10000) := by
  rw [runGraph_empty_eq, resMessage_ok_result, scatterState_counter]
  norm_num [result_check, Int.toNat_natCast]

lemma resultPrint_10000 :
    resultPrint 10000 = "Node: result (Expected=10000, Got=10000)" := by decide

lemma resLog_runGraph_empty :
    resLog (runGraph emptyState) = some
      ["Node: prepare_tasks",
       "Routing... Spawning tasks.",
       "Node: collector (all increments complete)",
       "Node: result (Expected=10000, Got=10000)"] := by
  rw [runGraph_empty_eq, resLog_ok, scatterState_counter, ← resultPrint_10000]
  norm_num

lemma perm_replicate_eq {α : Type} (l : List α) (k : Nat) (a : α)
    (h : l.Perm (List.replicate k a)) : l = List.replicate k a := by
  refine List.eq_replicate_iff.mpr ⟨?_, ?_⟩
  · simpa using h.length_eq
  · intro b hb
    exact List.eq_of_mem_replicate (h.subset hb)

/-- C1: for every fanOutCount `n ≥ 0`, running the pipeline with that
fan-out yields a final counter value equal to `n`: each of the `n` spawned
increment tasks contributes exactly 1 and the accumulator starts at 0. -/
theorem c1_finalValue_eq_fanout (n : Nat) :
    resCounter (runWithTasks (n : Int)) = some (n : Int) :=
  resCounter_runWithTasks n

/-- C2: the final accumulator value equals the sum of the per-task
contributions of all `n` spawned tasks plus the initial accumulator value,
and this holds for every order `l` in which the contributions are folded
(integer addition is associative and commutative). -/
theorem c2_reduce_order_invariant (n : Nat) (l : List Int)
    (h : l.Perm (contribsOf (List.replicate n { node := "increment", payload := emptyState }))) :
    ((l.map cUpd).foldl applyUpdate emptyState).counter.getD 0
      = (contribsOf (List.replicate n { node := "increment", payload := emptyState })).sum
        + emptyState.counter.getD 0 := by
  rw [foldl_cUpd_counter, h.sum_eq]
  ring

/-- Witness for C2 at `n = 2` with the fold order `[1, 1]`. -/
theorem c2_reduce_order_invariant_witness :
    ((([1, 1] : List Int).map cUpd).foldl applyUpdate emptyState).counter.getD 0
      = (contribsOf (List.replicate 2 { node := "increment", payload := emptyState })).sum
        + emptyState.counter.getD 0 :=
  c2_reduce_order_invariant 2 [1, 1] (List.Perm.refl _)

/-- C3: the verify step branches exactly on `succeeded = (got == expected)`;
with fanOutCount 10000 (the actual graph) the run yields counter 10000 and
the success message, which contains "Success" and "10000"; with fanOutCount
9999 against expected 10000 the run yields counter 9999 and the failure
message, which contains "Expected 10000, but got 9999". -/
theorem c3_verify_and_scenarios :
    (∀ e g : Int, result_check e g = if succeeded e g then successMsg g else failureMsg e g)
    ∧ resCounter (runGraph emptyState) = some 10000
    ∧ resMessage (runGraph emptyState) = some (successMsg 10000)
    ∧ succeeded 10000 10000 = true
    ∧ hasSub "Success" (successMsg 10000) = true
    ∧ hasSub "10000" (successMsg 10000) = true
    ∧ resCounter (runWithTasks 9999) = some 9999
    ∧ resMessage (runWithTasks 9999) = some (failureMsg 10000 9999)
    ∧ succeeded 10000 9999 = false
    ∧ hasSub "Expected 10000, but got 9999" (failureMsg 10000 9999) = true := by
  refine ⟨?_, resCounter_runGraph_empty, resMessage_runGraph_empty, by decide,
    by decide, by decide, ?_, ?_, by decide, by decide⟩
  · intro e g
    by_cases h : g = e <;> simp [result_check, succeeded, h]
  · simpa using resCounter_runWithTasks 9999
  · have h := resMessage_runWithTasks_pos 9999 (by norm_num)
    norm_num [result_check] at h
    exact h

/-- C4 counterexample: with `tasks_to_spawn = -1` the router returns
normally with the empty `Send` list; it does not fail with the
InvalidConfig error the claim asserts. -/
theorem c4_counterexample :
    spawn_router { counter := none, tasks_to_spawn := some (-1), message := none } = .ok []
    ∧ spawn_router { counter := none, tasks_to_spawn := some (-1), message := none }
        ≠ Except.error PyErr.invalidConfig := by
  refine ⟨rfl, ?_⟩
  intro h
  exact Except.noConfusion
    (show Except.ok ([] : List SendCmd) = Except.error PyErr.invalidConfig from h)

/-- C4 amended: a run with fanOutCount = -1 does not fail with
InvalidConfig — the router returns normally with the empty Send list — and
performs no scattering: no work unit is launched, and with zero spawned
tasks the graph never reaches the collector or result nodes, so the run
ends after routing with the state unchanged. -/
theorem c4_amended_no_error_no_scatter :
    spawn_router { counter := none, tasks_to_spawn := some (-1), message := none } = .ok []
    ∧ runWithTasks (-1) = .ok ({ counter := none, tasks_to_spawn := some (-1), message := none }, ["Routing... Spawning tasks."]) :=
  ⟨rfl, runWithTasks_nonpos_eq (-1) (by norm_num)⟩

/-- C5: the final counter value is a deterministic function of the
configuration: any two executions, each folding the spawned task updates
in an arbitrary order (any permutation of the spawned list), reach the
same final counter value. -/
theorem c5_deterministic_outcome (n : Nat) (l₁ l₂ : List CounterState)
    (h₁ : l₁.Perm (taskUpdates (List.replicate n { node := "increment", payload := emptyState })))
    (h₂ : l₂.Perm (taskUpdates (List.replicate n { node := "increment", payload := emptyState }))) :
    (l₁.foldl applyUpdate
        { counter := none, tasks_to_spawn := some (n : Int), message := none }).counter.getD 0
      = (l₂.foldl applyUpdate
          { counter := none, tasks_to_spawn := some (n : Int), message := none }).counter.getD 0 := by
  rw [taskUpdates_replicate, List.map_replicate] at h₁ h₂
  rw [perm_replicate_eq l₁ n (cUpd 1) h₁, perm_replicate_eq l₂ n (cUpd 1) h₂]

/-- Witness for C5 at `n = 1` with both executions folding `[cUpd 1]`. -/
theorem c5_deterministic_outcome_witness :
    ([cUpd 1].foldl applyUpdate
        { counter := none, tasks_to_spawn := some ((1 : Nat) : Int), message := none }).counter.getD 0
      = ([cUpd 1].foldl applyUpdate
          { counter := none, tasks_to_spawn := some ((1 : Nat) : Int), message := none }).counter.getD 0 :=
  c5_deterministic_outcome 1 [cUpd 1] [cUpd 1] (List.Perm.refl _) (List.Perm.refl _)

/-- C6: a run with fanOutCount 0 spawns nothing (vacuous barrier), yields
final counter 0, and the verify comparison at expectedTotal 0 succeeds. -/
theorem c6_zero_fanout :
    spawn_router { counter := none, tasks_to_spawn := some 0, message := none } = .ok []
    ∧ resCounter (runWithTasks 0) = some 0
    ∧ succeeded 0 0 = true := by
  refine ⟨rfl, ?_, rfl⟩
  rw [runWithTasks_nonpos_eq 0 le_rfl]
  rfl

/-- C7: each spawned work unit is pure and stateless: for every input
state, `increment_node` returns exactly the update `{"counter": 1}`. -/
theorem c7_increment_pure :
    ∀ s : CounterState,
      increment_node s = { counter := some 1, tasks_to_spawn := none, message := none } :=
  fun _ => rfl

/-- C8 counterexample: a complete run prints four lines, not three — the
prepare_tasks announcement precedes the routing, collector, and result
lines. -/
theorem c8_counterexample :
    resLog (runGraph emptyState) = some
      ["Node: prepare_tasks",
       "Routing... Spawning tasks.",
       "Node: collector (all increments complete)",
       "Node: result (Expected=10000, Got=10000)"]
    ∧ (["Node: prepare_tasks",
        "Routing... Spawning tasks.",
        "Node: collector (all increments complete)",
        "Node: result (Expected=10000, Got=10000)"] : List String).length ≠ 3 := by
  refine ⟨resLog_runGraph_empty, by decide⟩

/-- C8 amended: a complete run emits exactly four console lines — a
prepare announcement, a routing/spawn announcement, a collector
announcement, and a final comparison line. -/
theorem c8_amended_four_lines :
    resLog (runGraph emptyState) = some
      ["Node: prepare_tasks",
       "Routing... Spawning tasks.",
       "Node: collector (all increments complete)",
       "Node: result (Expected=10000, Got=10000)"]
    ∧ (["Node: prepare_tasks",
        "Routing... Spawning tasks.",
        "Node: collector (all increments complete)",
        "Node: result (Expected=10000, Got=10000)"] : List String).length = 4 := by
  refine ⟨resLog_runGraph_empty, by decide⟩

/-- C9: for every `n ≤ 0` in `tasks_to_spawn`, the router returns the
empty list and raises no error: zero or negative fan-out silently spawns
no tasks. -/
theorem c9_nonpositive_spawns_nothing (n : Int) (h : n ≤ 0) :
    spawn_router { counter := none, tasks_to_spawn := some n, message := none } = .ok [] := by
  show Except.ok (List.replicate n.toNat (⟨"increment", emptyState⟩ : SendCmd))
        = (Except.ok [] : Except PyErr (List SendCmd))
  rw [Int.toNat_of_nonpos h, List.replicate_zero]

/-- Witness for C9 at `n = -5`. -/
theorem c9_nonpositive_spawns_nothing_witness :
    (-5 : Int) ≤ 0
    ∧ spawn_router { counter := none, tasks_to_spawn := some (-5), message := none } = .ok [] :=
  ⟨by decide, c9_nonpositive_spawns_nothing (-5) (by decide)⟩

/-- C10: for every state in which the counter key is absent, result_node
treats the counter as 0 and returns the mismatch message, raising no
error. -/
theorem c10_missing_counter_reports_zero (s : CounterState) (h : s.counter = none) :
    result_node s = { counter := none, tasks_to_spawn := none, message := some "❌ Failure! Expected 10000, but got 0." } := by
  show ({ counter := none, tasks_to_spawn := none, message := some (result_check 10000 (s.counter.getD 0)) } : CounterState) = _
  rw [h]
  decide

/-- Witness for C10 at the empty state. -/
theorem c10_missing_counter_reports_zero_witness :
    emptyState.counter = none
    ∧ result_node emptyState = { counter := none, tasks_to_spawn := none, message := some "❌ Failure! Expected 10000, but got 0." } :=
  ⟨rfl, c10_missing_counter_reports_zero emptyState rfl⟩
